import Mathlib

/-!
Verification of the recall/precision metrics pipeline.

This file gives a shallow embedding of the core functions of the
repository (src/zhang_metrics.py, src/bib2table.py,
src/readers/bib_reader.py) and proves or refutes the frozen claims
about them.  Python strings are modelled as Lean `String`/`List Char`,
Python `None`-able strings as `Option String`, Python sets as
`Finset String`, machine-independent arithmetic as `Nat`/`Int`/`ℚ`.
All definitions are executable and structurally recursive so that
concrete instances evaluate inside the kernel.
-/

set_option maxRecDepth 1000000

namespace RecallPrecision

/-! ## Python string primitives -/

/-- The characters matched by Python `str.strip()` / regex `\s` on `str`
(ASCII whitespace, the C1 separators, and the Unicode spaces). -/
def pySpaceChars : List Char :=
  [' ', '\t', '\n', '\r', Char.ofNat 11, Char.ofNat 12, Char.ofNat 28, Char.ofNat 29,
   Char.ofNat 30, Char.ofNat 31, Char.ofNat 133, Char.ofNat 160, Char.ofNat 5760,
   Char.ofNat 8192, Char.ofNat 8193, Char.ofNat 8194, Char.ofNat 8195, Char.ofNat 8196,
   Char.ofNat 8197, Char.ofNat 8198, Char.ofNat 8199, Char.ofNat 8200, Char.ofNat 8201,
   Char.ofNat 8202, Char.ofNat 8232, Char.ofNat 8233, Char.ofNat 8239, Char.ofNat 8287,
   Char.ofNat 12288]

def isPySpace (c : Char) : Bool := pySpaceChars.contains c

/-- Python `str.strip()`. -/
def pyStrip (l : List Char) : List Char :=
  ((l.dropWhile isPySpace).reverse.dropWhile isPySpace).reverse

/-- Python `str.lower()` (ASCII case mapping; the inputs of interest are ASCII). -/
def pyLower (l : List Char) : List Char := l.map Char.toLower

def lowerStr (s : String) : String := String.mk (pyLower s.data)

/-- Python truthiness of an optional string: `None` and `""` are falsy. -/
def pyTruthy : Option String → Bool
  | none => false
  | some s => decide (s ≠ "")

def pyFalsy (o : Option String) : Bool := !(pyTruthy o)

/-- Python `a or b` on optional strings. -/
def optOr (a b : Option String) : Option String := if pyTruthy a then a else b

/-- Python `sub in s` substring test. -/
def containsSub (sub s : List Char) : Bool :=
  (List.range (s.length + 1)).any (fun i => sub.isPrefixOf (s.drop i))

/-! ## UTF-8 and percent decoding (urllib.parse.unquote) -/

def utf8EncodeChar (c : Char) : List Nat :=
  let n := c.toNat
  if n < 0x80 then [n]
  else if n < 0x800 then [0xC0 ||| (n >>> 6), 0x80 ||| (n &&& 0x3F)]
  else if n < 0x10000 then
    [0xE0 ||| (n >>> 12), 0x80 ||| ((n >>> 6) &&& 0x3F), 0x80 ||| (n &&& 0x3F)]
  else
    [0xF0 ||| (n >>> 18), 0x80 ||| ((n >>> 12) &&& 0x3F), 0x80 ||| ((n >>> 6) &&& 0x3F),
     0x80 ||| (n &&& 0x3F)]

def utf8Encode (l : List Char) : List Nat := l.flatMap utf8EncodeChar

def hexVal (c : Char) : Option Nat :=
  if '0' ≤ c ∧ c ≤ '9' then some (c.toNat - 48)
  else if 'a' ≤ c ∧ c ≤ 'f' then some (c.toNat - 87)
  else if 'A' ≤ c ∧ c ≤ 'F' then some (c.toNat - 55)
  else none

/-- Percent-decoding pass of `urllib.parse.unquote`: each `%hh` escape with two
hex digits becomes one byte, every other character contributes its UTF-8 bytes.
The fuel argument (instantiated with the list length, which always suffices)
makes the recursion structural so that it reduces inside the kernel. -/
def percentBytesF : Nat → List Char → List Nat
  | _, [] => []
  | 0, l => utf8Encode l
  | fuel+1, c :: rest =>
    if c = '%' then
      match rest with
      | h1 :: h2 :: rest2 =>
        match hexVal h1, hexVal h2 with
        | some x, some y => (16 * x + y) :: percentBytesF fuel rest2
        | _, _ => utf8EncodeChar c ++ percentBytesF fuel rest
      | _ => utf8EncodeChar c ++ percentBytesF fuel rest
    else utf8EncodeChar c ++ percentBytesF fuel rest

def percentBytes (l : List Char) : List Nat := percentBytesF l.length l

def replacementChar : Char := Char.ofNat 0xFFFD

def isUtf8Cont (b : Nat) : Bool := 0x80 ≤ b && b ≤ 0xBF

/-- UTF-8 decoding with `errors="replace"`: a malformed leading byte is replaced
and decoding resumes at the next byte.  Fuel as in `percentBytesF`. -/
def utf8DecodeReplaceF : Nat → List Nat → List Char
  | _, [] => []
  | 0, _ => []
  | fuel+1, b :: rest =>
    if b < 0x80 then Char.ofNat b :: utf8DecodeReplaceF fuel rest
    else if 0xC2 ≤ b && b ≤ 0xDF then
      match rest with
      | c1 :: rest2 =>
        if isUtf8Cont c1 then
          Char.ofNat (((b - 0xC0) <<< 6) + (c1 - 0x80)) :: utf8DecodeReplaceF fuel rest2
        else replacementChar :: utf8DecodeReplaceF fuel rest
      | [] => [replacementChar]
    else if 0xE0 ≤ b && b ≤ 0xEF then
      match rest with
      | c1 :: c2 :: rest2 =>
        if isUtf8Cont c1 && isUtf8Cont c2 && !(b = 0xE0 && c1 < 0xA0) && !(b = 0xED && 0xA0 ≤ c1) then
          Char.ofNat (((b - 0xE0) <<< 12) + ((c1 - 0x80) <<< 6) + (c2 - 0x80)) ::
            utf8DecodeReplaceF fuel rest2
        else replacementChar :: utf8DecodeReplaceF fuel rest
      | _ => replacementChar :: utf8DecodeReplaceF fuel rest
    else if 0xF0 ≤ b && b ≤ 0xF4 then
      match rest with
      | c1 :: c2 :: c3 :: rest2 =>
        if isUtf8Cont c1 && isUtf8Cont c2 && isUtf8Cont c3 &&
           !(b = 0xF0 && c1 < 0x90) && !(b = 0xF4 && 0x90 ≤ c1) then
          Char.ofNat (((b - 0xF0) <<< 18) + ((c1 - 0x80) <<< 12) + ((c2 - 0x80) <<< 6) +
            (c3 - 0x80)) :: utf8DecodeReplaceF fuel rest2
        else replacementChar :: utf8DecodeReplaceF fuel rest
      | _ => replacementChar :: utf8DecodeReplaceF fuel rest
    else replacementChar :: utf8DecodeReplaceF fuel rest

def utf8DecodeReplace (bs : List Nat) : List Char := utf8DecodeReplaceF bs.length bs

/-- Model of `urllib.parse.unquote` on `str`. -/
def unquote (l : List Char) : List Char := utf8DecodeReplace (percentBytes l)

/-! ## SHA-1 (hashlib.sha1) over byte lists, 32-bit words as Nat mod 2^32 -/

def M32 : Nat := 4294967296

def rotl32 (x s : Nat) : Nat :=
  ((x <<< s) % M32) ||| (x >>> (32 - s))

def sha1K (i : Nat) : Nat :=
  if i < 20 then 0x5A827999 else if i < 40 then 0x6ED9EBA1
  else if i < 60 then 0x8F1BBCDC else 0xCA62C1D6

def sha1F (i b c d : Nat) : Nat :=
  if i < 20 then (b &&& c) ||| ((b ^^^ 0xFFFFFFFF) &&& d)
  else if i < 40 then b ^^^ c ^^^ d
  else if i < 60 then (b &&& c) ||| (b &&& d) ||| (c &&& d)
  else b ^^^ c ^^^ d

def sha1Extend (w : List Nat) : Nat → List Nat
  | 0 => w
  | k+1 =>
    let n := w.length
    let x := rotl32 ((w.getD (n-3) 0) ^^^ (w.getD (n-8) 0) ^^^ (w.getD (n-14) 0) ^^^
      (w.getD (n-16) 0)) 1
    sha1Extend (w ++ [x]) k

def beWord (block : List Nat) (i : Nat) : Nat :=
  ((block.getD (4*i) 0) <<< 24) + ((block.getD (4*i+1) 0) <<< 16) +
  ((block.getD (4*i+2) 0) <<< 8) + block.getD (4*i+3) 0

def sha1Block (h : Nat × Nat × Nat × Nat × Nat) (block : List Nat) :
    Nat × Nat × Nat × Nat × Nat :=
  let w0 := (List.range 16).map (beWord block)
  let w := sha1Extend w0 64
  let st := (List.range 80).foldl (fun st i =>
    match st with
    | (a, b, c, d, e) =>
      let t := (rotl32 a 5 + sha1F i b c d + e + sha1K i + w.getD i 0) % M32
      (t, a, rotl32 b 30, c, d)) (h.1, h.2.1, h.2.2.1, h.2.2.2.1, h.2.2.2.2)
  match st with
  | (a, b, c, d, e) =>
    ((h.1 + a) % M32, (h.2.1 + b) % M32, (h.2.2.1 + c) % M32,
     (h.2.2.2.1 + d) % M32, (h.2.2.2.2 + e) % M32)

def toBE64 (n : Nat) : List Nat :=
  [(n >>> 56) % 256, (n >>> 48) % 256, (n >>> 40) % 256, (n >>> 32) % 256,
   (n >>> 24) % 256, (n >>> 16) % 256, (n >>> 8) % 256, n % 256]

def sha1Pad (msg : List Nat) : List Nat :=
  let len := msg.length
  let k := (119 - (len % 64)) % 64
  msg ++ [0x80] ++ List.replicate k 0 ++ toBE64 (len * 8)

/-- Splits a byte list into 64-byte blocks; the first argument is fuel that is
always sufficient when instantiated with the list length. -/
def toBlocksF : Nat → List Nat → List (List Nat)
  | _, [] => []
  | 0, l => [l]
  | fuel+1, l => l.take 64 :: toBlocksF fuel (l.drop 64)

def toBlocks (l : List Nat) : List (List Nat) := toBlocksF l.length l

def sha1Bytes (msg : List Nat) : List Nat :=
  let blocks := toBlocks (sha1Pad msg)
  let hf := blocks.foldl sha1Block (0x67452301, 0xEFCDAB89, 0x98BADCFE, 0x10325476, 0xC3D2E1F0)
  [hf.1, hf.2.1, hf.2.2.1, hf.2.2.2.1, hf.2.2.2.2].flatMap
    (fun w => [(w >>> 24) % 256, (w >>> 16) % 256, (w >>> 8) % 256, w % 256])

def hexDigitChar (n : Nat) : Char := if n < 10 then Char.ofNat (48 + n) else Char.ofNat (87 + n)

def byteHex (b : Nat) : List Char := [hexDigitChar (b / 16), hexDigitChar (b % 16)]

/-- Lowercase hex digest of the SHA-1 of a byte list (hashlib hexdigest). -/
def sha1HexOfBytes (bs : List Nat) : String :=
  String.mk ((sha1Bytes bs).flatMap byteHex)

/-! ## src/zhang_metrics.py : clean_doi, fallback_id -/

/-- Zero-width characters removed by `clean_doi`
(`s.replace("​","").replace("‌","").replace("‍","")`). -/
def zeroWidthChars : List Char := [Char.ofNat 0x200b, Char.ofNat 0x200c, Char.ofNat 0x200d]

def removeZeroWidth (l : List Char) : List Char :=
  l.filter (fun c => !(zeroWidthChars.contains c))

/-- Regex sub `re.sub(r"\s+", "", s)`: delete every whitespace character. -/
def removeAllSpace (l : List Char) : List Char := l.filter (fun c => !(isPySpace c))

/-- The concrete strings generated by `https?://(?:dx\.)?doi\.org/` (the regex is
case-insensitive, so they are matched against the lowercased input). -/
def resolverForms : List String :=
  ["https://dx.doi.org/", "http://dx.doi.org/", "https://doi.org/", "http://doi.org/"]

/-- Regex sub `re.sub(r"^https?://(?:dx\.)?doi\.org/", "", s, flags=re.I)`. -/
def stripResolver (l : List Char) : List Char :=
  match resolverForms.find? (fun p => p.data.isPrefixOf (pyLower l)) with
  | some p => l.drop p.length
  | none => l

/-- Characters of the trailing-junk class `[\]\).;,]`. -/
def trailingJunkChars : List Char := [']', ')', '.', ';', ',']

/-- Regex sub `re.sub(r"[\]\).;,]+$", "", s)`. -/
def stripTrailingJunk (l : List Char) : List Char :=
  (l.reverse.dropWhile (fun c => trailingJunkChars.contains c)).reverse

/-- Match of `DOI_RE = re.compile(r"^10\.\d{4,9}/\S+$", re.IGNORECASE)`. -/
def doiPatternMatch (l : List Char) : Bool :=
  match l with
  | '1' :: '0' :: '.' :: rest =>
    let ds := rest.takeWhile Char.isDigit
    let rest2 := rest.drop ds.length
    decide (4 ≤ ds.length) && decide (ds.length ≤ 9) &&
    (match rest2 with
     | '/' :: tail => !(tail.isEmpty) && tail.all (fun c => !(isPySpace c))
     | _ => false)
  | _ => false

/-- `clean_doi` of src/zhang_metrics.py (lines 121-139). -/
def clean_doi (doi : Option String) : Option String :=
  if !(pyTruthy doi) then none
  else
    let s1 := unquote (doi.getD "").data
    let s2 := removeZeroWidth s1
    let s3 := removeAllSpace s2
    let s4 := stripResolver s3
    let s5 := pyStrip (stripTrailingJunk s4)
    if doiPatternMatch s5 then some (String.mk (pyLower s5)) else none

/-- Normalized title used by `fallback_id`: `(title or "").strip().lower()`. -/
def normalizedTitle (title : Option String) : List Char :=
  pyLower (pyStrip (title.getD "").data)

/-- Normalized year used by `fallback_id`: `str(year).strip() if year else ""`. -/
def normalizedYear (year : Option String) : List Char :=
  if pyTruthy year then pyStrip (year.getD "").data else []

/-- `fallback_id` of src/zhang_metrics.py (lines 142-146):
`"ttlY:" + sha1(f"{t}||{y}".encode("utf-8")).hexdigest()`. -/
def fallback_id (title year : Option String) : String :=
  let base := normalizedTitle title ++ "||".data ++ normalizedYear year
  "ttlY:" ++ sha1HexOfBytes (utf8Encode base)

/-! ## src/zhang_metrics.py : parse_bib_dir, compute_metrics, _summarize_duplicates -/

/-- The fields of a bibtexparser entry read by `parse_bib_dir`:
`e.get("doi")`, `e.get("DOI")`, `e.get("title")`, `e.get("year")`. -/
structure BibEntry where
  doi : Option String
  doiUC : Option String
  title : Option String
  year : Option String

/-- One element of the `detail` list built by `parse_bib_dir`
(the `source_file` key is omitted: it never feeds any computation). -/
structure Detail where
  id : String
  doi : Option String
  title : Option String
  year : Option String

def doiKey (d : String) : String := "doi:" ++ d

/-- Body of the entry loop of `parse_bib_dir` (lines 170-187). -/
def entryStep (acc : Finset String × Finset String × List Detail) (e : BibEntry) :
    Finset String × Finset String × List Detail :=
  let d := clean_doi (optOr e.doi e.doiUC)
  if pyTruthy d then
    let dv := d.getD ""
    (insert (doiKey dv) acc.1, insert dv acc.2.1, acc.2.2 ++ [⟨doiKey dv, d, e.title, e.year⟩])
  else
    let cid := fallback_id e.title e.year
    (insert cid acc.1, acc.2.1, acc.2.2 ++ [⟨cid, d, e.title, e.year⟩])

/-- `parse_bib_dir` restricted to its pure core: the directory walk and
bibtexparser are external; the function folds the entry loop over the parsed
entries, returning `(retrieved_ids, retrieved_dois, detail)`. -/
def parse_bib_entries (entries : List BibEntry) : Finset String × Finset String × List Detail :=
  entries.foldl entryStep (∅, ∅, [])

/-- Duplicate summary of `_summarize_duplicates` (lines 296-317). -/
structure DupSummary where
  duplicates_collapsed_total : Nat
  duplicates_by_doi : List (String × Nat)
  duplicates_by_fallback : List (String × Nat)

/-- Distinct elements of `l` in first-occurrence order: the key order of a
Python dict built over `l`. -/
def firstOccur (l : List String) : List String :=
  l.foldl (fun acc x => if x ∈ acc then acc else acc ++ [x]) []

/-- Counts of each distinct element in first-occurrence order: the content of a
Python counting dict `m[k] = m.get(k, 0) + 1` built over `l`. -/
def countsOf (l : List String) : List (String × Nat) :=
  (firstOccur l).map (fun k => (k, l.count k))

/-- `_summarize_duplicates` of src/zhang_metrics.py (lines 296-317).  The
collapsed total sums `count - 1` over the identity groups with more than one
member; the iteration order of the Python dict does not affect a sum, so the
sum is taken over `ids.dedup` (same distinct keys). -/
def summarize_duplicates (detail : List Detail) : DupSummary :=
  let ids := detail.map Detail.id
  let doiVals := detail.filterMap (fun d => if pyTruthy d.doi then d.doi else none)
  let fbIds := detail.filterMap (fun d =>
    if !(pyTruthy d.doi) && decide (d.id ≠ "") && d.id.startsWith "ttlY:" then some d.id else none)
  { duplicates_collapsed_total :=
      (((ids.dedup.map (fun k => ids.count k)).filter (fun v => 1 < v)).map (fun v => v - 1)).sum
    duplicates_by_doi :=
      ((countsOf doiVals).filter (fun p => 1 < p.2)).mergeSort (fun a b => b.2 ≤ a.2)
    duplicates_by_fallback :=
      ((countsOf fbIds).filter (fun p => 1 < p.2)).mergeSort (fun a b => b.2 ≤ a.2) }

/-- Python `round(x, 2)` (round half to even), on exact rationals. -/
def round2 (x : ℚ) : ℚ :=
  let y := x * 100
  let f : ℤ := Int.floor y
  let r := y - (f : ℚ)
  let n : ℤ := if r < 1/2 then f else if 1/2 < r then f + 1 else if f % 2 = 0 then f else f + 1
  (n : ℚ) / 100

/-- The metrics block of the report built by `compute_metrics` (lines 251-287). -/
structure Report where
  ID : Nat
  TE : Nat
  TEdoi : Nat
  ER : Nat
  TER : Nat
  TPdois : Finset String
  FNdois : Finset String
  FPdois : Finset String
  RC : ℚ
  EF : ℚ
  RCpercent : ℚ
  EFpercent : ℚ
  duplicates : DupSummary

/-- Pure core of `compute_metrics` of src/zhang_metrics.py (lines 238-294):
the retrieved sets and detail come from `parse_bib_entries` (or the CSV
reader), the relevant DOI set from `load_relevant`; file output is external. -/
def compute_metrics (relevant_dois retrieved_dois retrieved_ids : Finset String)
    (detail : List Detail) : Report :=
  let ID := detail.length
  let TE := retrieved_ids.card
  let TEdoi := retrieved_dois.card
  let ER := relevant_dois.card
  let TERdois := relevant_dois ∩ retrieved_dois
  let TER := TERdois.card
  let FN := relevant_dois \ retrieved_dois
  let FP := retrieved_dois \ relevant_dois
  let RC : ℚ := if ER = 0 then 0 else ((TER : ℚ) / (ER : ℚ)) * 100
  let EF : ℚ := if TE = 0 then 0 else ((TER : ℚ) / (TE : ℚ)) * 100
  { ID := ID, TE := TE, TEdoi := TEdoi, ER := ER, TER := TER,
    TPdois := TERdois, FNdois := FN, FPdois := FP,
    RC := RC, EF := EF, RCpercent := round2 RC, EFpercent := round2 EF,
    duplicates := summarize_duplicates detail }

/-! ## src/bib2table.py : split_bibtex_entries -/

def obr : Char := '\x7b'

def cbr : Char := '\x7d'

/-- Index of the first occurrence of `c` in `l` (Python `text.find(c, i)` with
the remaining suffix as `l`). -/
def findChar (c : Char) : List Char → Option Nat
  | [] => none
  | x :: xs => if x = c then some 0 else (findChar c xs).map (· + 1)

/-- Inner scanning loop of `split_bibtex_entries` (lines 26-31): consume
characters updating the brace depth; returns the number of characters consumed
when the depth returns to 0, or `none` when the text ends first. -/
def scanCloseLen : List Char → Nat → Option Nat
  | [], _ => none
  | ch :: rest, depth =>
    let d := if ch = obr then depth + 1 else if ch = cbr then depth - 1 else depth
    if d = 0 then some 1 else (scanCloseLen rest d).map (· + 1)

/-- Outer loop of `split_bibtex_entries` (lines 20-36) on the remaining suffix
of the text.  The fuel argument (instantiated with length + 1, which always
suffices since every iteration consumes at least two characters) makes the
recursion structural. -/
def splitLoop : Nat → List Char → List (List Char)
  | 0, _ => []
  | fuel+1, l =>
    match findChar '@' l with
    | none => []
    | some a =>
      let tl := l.drop a
      match findChar obr tl with
      | none => []
      | some b =>
        match scanCloseLen (tl.drop (b + 1)) 1 with
        | some m => tl.take (b + 1 + m) :: splitLoop fuel (tl.drop (b + 1 + m))
        | none => [tl]

/-- `split_bibtex_entries` of src/bib2table.py (lines 19-36). -/
def split_bibtex_entries (text : String) : List String :=
  (splitLoop (text.data.length + 1) text.data).map String.mk

/-! ## src/bib2table.py : _parse_bib_value, _clean_bib_value -/

/-- Brace branch of `_parse_bib_value` (lines 42-52): characters after the
opening brace are consumed tracking depth; the closing brace that returns the
depth to 0 is consumed but not appended.  Returns (buffer, chars consumed). -/
def braceLoop : List Char → Nat → List Char × Nat
  | [], _ => ([], 0)
  | c :: rest, depth =>
    if c = obr then
      let r := braceLoop rest (depth + 1)
      (c :: r.1, r.2 + 1)
    else if c = cbr then
      if depth - 1 = 0 then ([], 1)
      else
        let r := braceLoop rest (depth - 1)
        (c :: r.1, r.2 + 1)
    else
      let r := braceLoop rest depth
      (c :: r.1, r.2 + 1)

/-- Quote branch of `_parse_bib_value` (lines 53-60): consume until an
unescaped quote; `prev` is the previously scanned character (`s[pos-1]`). -/
def quoteLoop : List Char → Char → List Char × Nat
  | [], _ => ([], 0)
  | c :: rest, prev =>
    if c = '"' && !(prev = '\\') then ([], 1)
    else
      let r := quoteLoop rest c
      (c :: r.1, r.2 + 1)

/-- `_parse_bib_value` of src/bib2table.py (lines 38-65). -/
def parse_bib_value (s : List Char) (pos : Nat) : List Char × Nat :=
  if s.length ≤ pos then ([], pos)
  else
    match s.drop pos with
    | [] => ([], pos)
    | ch :: rest2 =>
      if ch = obr then
        let r := braceLoop rest2 1
        (r.1, pos + 1 + r.2)
      else if ch = '"' then
        let r := quoteLoop rest2 ch
        (r.1, pos + 1 + r.2)
      else
        let buf := (ch :: rest2).takeWhile (fun c => !(c = ',') && !(c = cbr))
        (buf, pos + buf.length)

/-- Balance-check loop of `_clean_bib_value` (lines 71-78): scans `v2` with a
running depth; fails when the depth goes negative at a closing brace or returns
to 0 before the final index.  A nonzero depth at the end is NOT rejected. -/
def balLoop : List Char → Nat → Nat → Int → Bool
  | [], _, _, _ => true
  | c :: rest, i, lastIdx, depth =>
    let d : Int := if c = obr then depth + 1 else if c = cbr then depth - 1 else depth
    if c = cbr && d < 0 then false
    else if d = 0 && !(i = lastIdx) then false
    else balLoop rest (i + 1) lastIdx d

/-- Unwrap `while` loop of `_clean_bib_value` (lines 70-80), with fuel
(instantiated with the string length, which always suffices since each
iteration shortens the string). -/
def unwrapLoop : Nat → List Char → List Char
  | 0, v => v
  | fuel+1, v =>
    match v with
    | [] => []
    | c :: _ =>
      if c = obr && v.getLast? = some cbr then
        if balLoop v 0 (v.length - 1) 0 then unwrapLoop fuel (pyStrip ((v.drop 1).dropLast))
        else v
      else v

/-- Whitespace collapsing of `_clean_bib_value` (lines 81-82): the source
applies `re.sub(r'\s+\n', ' ')` and then `re.sub(r'\s+', ' ')`.  The first sub
rewrites some whitespace runs to a space (whitespace to whitespace, touching no
other character), after which the second sub maps every maximal whitespace run
to a single space; the composition therefore maps every maximal whitespace run
to a single space, which is what this function computes (the flag records
whether the previous character was part of a whitespace run). -/
def collapseAux : Bool → List Char → List Char
  | _, [] => []
  | prevSpace, c :: rest =>
    if isPySpace c then
      if prevSpace then collapseAux true rest else ' ' :: collapseAux true rest
    else c :: collapseAux false rest

def collapseWs (l : List Char) : List Char := collapseAux false l

/-- `_clean_bib_value` of src/bib2table.py (lines 67-83). -/
def clean_bib_value (v : List Char) : List Char :=
  let v2 := pyStrip v
  let v3 := unwrapLoop v2.length v2
  pyStrip (collapseWs v3)

/-! ## src/readers/bib_reader.py : venue detection and provider fixes -/

/-- `_detect_venue_type` of src/readers/bib_reader.py (lines 123-138).
The `venue` parameter is unused, exactly as in the source. -/
def detect_venue_type (entry_type venue series : Option String) : Option String :=
  let et := lowerStr (entry_type.getD "")
  if et = "article" then some "journal"
  else if et = "inproceedings" ∨ et = "proceedings" then some "conference"
  else if et = "book" ∨ et = "inbook" then some "book"
  else if et = "phdthesis" ∨ et = "mastersthesis" ∨ et = "bachelorthesis" then some "thesis"
  else if pyTruthy series then
    let s := pyLower (series.getD "").data
    if containsSub "icse".data s || containsSub "gecco".data s ||
       containsSub "issta".data s || containsSub "ase".data s then some "conference"
    else none
  else none

/-- `_prefer_venue` of src/readers/bib_reader.py (lines 81-86): first truthy of
the `journal`, `booktitle`, `howpublished` fields. -/
def prefer_venue (journal booktitle howpublished : Option String) : Option String :=
  if pyTruthy journal then journal
  else if pyTruthy booktitle then booktitle
  else if pyTruthy howpublished then howpublished
  else none

structure Author where
  full : String
  last : String
  firstName : String
deriving DecidableEq

/-- The normalized record dict built by `_normalize_raw_entry` (lines 263-302).
The `extra.raw` payload is omitted (never read by the providers). -/
structure NormRecord where
  id : Option String
  entry_type : Option String
  title : Option String
  authors : List Author
  year : Option Int
  venue : Option String
  venue_type : Option String
  volume : Option String
  number : Option String
  pages_text : Option String
  page_start : Option String
  page_end : Option String
  numpages : Option Int
  publisher : Option String
  issn : Option String
  isbn : Option String
  doi : Option String
  doi_resolver_url : Option String
  url : Option String
  keywords : List String
  abstract : Option String
  series : Option String
  address : Option String
  location : Option String
  source_file : String
  source_folder : String
  source_platform : Option String
  source_provider : Option String
  cite_key : Option String
  key_normalized : Option String
  hash : String
  tags : List String
  url_via_proxy : Bool
deriving DecidableEq

/-- The keys of the raw bibtexparser entry read by the provider adapters
(`url`, `doi`, `publisher`); a missing key is `none`, and `raw.get(k, "")`
is then `""`. -/
structure RawEntryDict where
  url : Option String
  doi : Option String
  publisher : Option String
deriving DecidableEq

/-- `ScienceDirectProvider.detect` (lines 160-164). -/
def sciencedirectDetect (raw : RawEntryDict) : Bool :=
  let url := pyLower (raw.url.getD "").data
  let doi := pyLower (raw.doi.getD "").data
  containsSub "sciencedirect.com".data url || "10.1016/".data.isPrefixOf doi

/-- `ACMProvider.detect` (lines 183-193). -/
def acmDetect (raw : RawEntryDict) : Bool :=
  let url := pyLower (raw.url.getD "").data
  let doi := pyLower (raw.doi.getD "").data
  let pub := pyLower (raw.publisher.getD "").data
  containsSub "dl.acm.org".data url || containsSub "acm.org".data url ||
  "10.1145/".data.isPrefixOf doi ||
  containsSub "association for computing machinery".data pub

/-- Shared block `if doi and not normalized.get("doi_resolver_url"):
normalized["doi_resolver_url"] = f"https://doi.org/{doi}"`. -/
def setResolverUrl (n : NormRecord) : NormRecord :=
  if pyTruthy n.doi && pyFalsy n.doi_resolver_url then
    { n with doi_resolver_url := some ("https://doi.org/" ++ n.doi.getD "") }
  else n

/-- Shared block `if not normalized.get("venue_type"):
normalized["venue_type"] = _detect_venue_type(...)`. -/
def setVenueTypeIfMissing (n : NormRecord) : NormRecord :=
  if pyFalsy n.venue_type then
    { n with venue_type := detect_venue_type n.entry_type n.venue n.series }
  else n

/-- `ScienceDirectProvider.fix` (lines 166-177).  The
`setdefault("source_platform", ...)` call is a no-op because the normalizer
always creates the `source_platform` key (set to `None`), and `setdefault`
never overwrites an existing key. -/
def sciencedirectFix (normalized : NormRecord) (_raw : RawEntryDict) : NormRecord :=
  setVenueTypeIfMissing (setResolverUrl { normalized with source_provider := some "sciencedirect" })

def acmCanonicalName : String := "Association for Computing Machinery"

/-- Condition of the publisher-normalization block of `ACMProvider.fix`
(lines 200-201): `pub and "association for computing machinery" in
str(pub).lower()` with `pub = normalized.get("publisher") or
raw_entry.get("publisher")`. -/
def acmNormCond (n : NormRecord) (raw : RawEntryDict) : Bool :=
  let pub := optOr n.publisher raw.publisher
  pyTruthy pub &&
    containsSub "association for computing machinery".data (pyLower (pub.getD "").data)

/-- Publisher-normalization block of `ACMProvider.fix` (lines 199-202). -/
def acmNormalizePublisher (n : NormRecord) (raw : RawEntryDict) : NormRecord :=
  if acmNormCond n raw then { n with publisher := some acmCanonicalName } else n

/-- `ACMProvider.fix` (lines 195-210); `setdefault` is a no-op as in
`sciencedirectFix`. -/
def acmFix (normalized : NormRecord) (raw : RawEntryDict) : NormRecord :=
  setVenueTypeIfMissing (setResolverUrl
    (acmNormalizePublisher { normalized with source_provider := some "acm" } raw))

/-! ## Spec-side definitions (for comparison against the source) -/

/-- Modelled from the spec: the fallback identity formula of section 3
(`ttlY:<sha1(title_lower || "||" || author_full_list_csv_or_empty || "||" ||
year_or_empty)>`), which includes the comma-separated author full names as a
hashed component. -/
def spec_ttlY_identity (title : Option String) (authorsCsv : String)
    (year : Option String) : String :=
  "ttlY:" ++ sha1HexOfBytes (utf8Encode
    (pyLower (title.getD "").data ++ "||".data ++ authorsCsv.data ++ "||".data ++
      (year.getD "").data))

/-- Modelled from the amended claim: a two-component fallback identity,
`ttlY:<sha1(title_stripped_lower || "||" || year_stripped_or_empty)>`,
with no author component. -/
def spec_ttlY_two_part (title year : Option String) : String :=
  "ttlY:" ++ sha1HexOfBytes (utf8Encode
    (pyLower (pyStrip (title.getD "").data) ++ "||".data ++
      (if pyTruthy year then pyStrip (year.getD "").data else [])))

/-- Modelled from the spec: a string is one genuinely redundant balanced braced
group when the brace depth returns to 0 only at the final character (and never
goes negative). -/
def groupScan : List Char → Int → Bool
  | [], d => decide (d = 0)
  | c :: rest, d =>
    let d2 : Int := if c = obr then d + 1 else if c = cbr then d - 1 else d
    match rest with
    | [] => decide (d2 = 0)
    | _ :: _ => decide (0 < d2) && groupScan rest d2

def trulyBalancedGroup (v : List Char) : Bool := !(v.isEmpty) && groupScan v 0

/-- The series-heuristic condition of `_detect_venue_type` (lines 134-137),
named for use in statements: a truthy series containing a known conference
series abbreviation. -/
def seriesHint (series : Option String) : Bool :=
  pyTruthy series &&
    (let s := pyLower (series.getD "").data
     containsSub "icse".data s || containsSub "gecco".data s ||
     containsSub "issta".data s || containsSub "ase".data s)

/-- A concrete normalized record whose publisher is the lowercase ACM name. -/
def acmSampleRecord : NormRecord :=
  { id := none, entry_type := some "inproceedings", title := some "A Study", authors := [],
    year := some 2020, venue := none, venue_type := none, volume := none, number := none,
    pages_text := none, page_start := none, page_end := none, numpages := none,
    publisher := some "association for computing machinery", issn := none, isbn := none,
    doi := none, doi_resolver_url := none, url := none, keywords := [], abstract := none,
    series := none, address := none, location := none, source_file := "a.bib",
    source_folder := "in", source_platform := none, source_provider := none,
    cite_key := none, key_normalized := none, hash := "h", tags := [], url_via_proxy := false }

def emptyRawEntry : RawEntryDict := ⟨none, none, none⟩

/-! ## Theorems -/

/-- C4: DOI cleaning is claimed idempotent, but `clean_doi` percent-decodes its
input on every call (`unquote`), so a DOI containing an escaped percent escape
is decoded twice: `10.1234/a%2541` cleans to `10.1234/a%41`, which cleans
again to `10.1234/aa`.  The evaluation below exhibits the failure. -/
theorem C4_clean_doi_not_idempotent :
    clean_doi (some "10.1234/a%2541") = some "10.1234/a%41" ∧
    clean_doi (clean_doi (some "10.1234/a%2541")) = some "10.1234/aa" ∧
    clean_doi (clean_doi (some "10.1234/a%2541")) ≠ clean_doi (some "10.1234/a%2541") := by
  refine ⟨by decide, by decide, by decide⟩

/-- C6 counterexample: the text `"@x"` contains an `@` sigil, yet the entry
splitter returns the empty sequence (there is no `{` after the `@`). -/
theorem C6_counterexample :
    split_bibtex_entries "@x" = [] ∧ '@' ∈ "@x".data := by
  exact ⟨by decide, by decide⟩

/-- C6 (amended): the splitter returns an empty sequence exactly when the text
has no `@`, or no `{` after its first `@`; and whenever an iteration of the
loop finds an `@` and a following `{` but the brace depth never returns to 0
before the end of the text, the truncated remainder from that `@` is yielded
as the final entry. -/
theorem C6_split_behaviour :
    (∀ text : String,
      (split_bibtex_entries text = [] ↔
        (match findChar '@' text.data with
         | none => True
         | some a => findChar obr (text.data.drop a) = none))) ∧
    (∀ (fuel : Nat) (l : List Char) (a b : Nat),
      findChar '@' l = some a →
      findChar obr (l.drop a) = some b →
      scanCloseLen ((l.drop a).drop (b + 1)) 1 = none →
      splitLoop (fuel + 1) l = [l.drop a]) := by
  constructor
  · intro text
    unfold split_bibtex_entries
    cases h1 : findChar '@' text.data with
    | none => simp only [splitLoop, h1]; simp
    | some a =>
      cases h2 : findChar obr (text.data.drop a) with
      | none => simp only [splitLoop, h1, h2]; simp
      | some b =>
        cases h3 : scanCloseLen ((text.data.drop a).drop (b + 1)) 1 with
        | none => simp only [splitLoop, h1, h2, h3]; simp
        | some m => simp only [splitLoop, h1, h2, h3]; simp
  · intro fuel l a b h1 h2 h3
    simp only [splitLoop, h1, h2, h3]

/-- C6 witness: the malformed trailing entry `"@x{y"` (depth never returns
to 0) is yielded whole, via the amended theorem at a concrete input. -/
theorem C6_witness :
    splitLoop 5 "@x\x7by".data = ["@x\x7by".data] :=
  C6_split_behaviour.2 4 "@x\x7by".data 0 2 (by decide) (by decide) (by decide)

/-- C7 counterexample: the value `"{{a}"` is not one genuinely redundant
balanced braced group (its brace depth at the final character is 1, not 0), yet
the unwrap pass strips its first and last characters, storing `"{a"`. -/
theorem C7_counterexample :
    clean_bib_value "\x7b\x7ba\x7d".data = "\x7ba".data ∧
    trulyBalancedGroup "\x7b\x7ba\x7d".data = false := by
  exact ⟨by decide, by decide⟩

/-- C7 (amended): the unwrap pass strips a surrounding brace pair when the
trimmed value starts with `{`, ends with `}`, and the brace depth neither goes
negative nor returns to 0 before the final character; it does not verify that
the final depth is 0, so `"{{a}"` is stripped to `"{a"`.  `"{A}{B}"` is left
unchanged (depth returns to 0 early, so the balance check fails), the value of
`title = {A {B} C}` is parsed as `A {B} C` and stored unchanged, and a value
failing the balance check is never unwrapped. -/
theorem C7_clean_bib_value_behaviour :
    clean_bib_value "\x7bA\x7d\x7bB\x7d".data = "\x7bA\x7d\x7bB\x7d".data ∧
    parse_bib_value "\x7bA \x7bB\x7d C\x7d".data 0 = ("A \x7bB\x7d C".data, 9) ∧
    clean_bib_value "A \x7bB\x7d C".data = "A \x7bB\x7d C".data ∧
    clean_bib_value "\x7bA \x7bB\x7d C\x7d".data = "A \x7bB\x7d C".data ∧
    clean_bib_value "\x7b\x7ba\x7d".data = "\x7ba".data ∧
    (∀ (fuel : Nat) (v : List Char),
      balLoop v 0 (v.length - 1) 0 = false → unwrapLoop (fuel + 1) v = v) := by
  refine ⟨by decide, by decide, by decide, by decide, by decide, ?_⟩
  intro fuel v h
  cases v with
  | nil => rfl
  | cons c rest =>
    have h2 : balLoop (c :: rest) 0 rest.length 0 = false := by simpa using h
    simp [unwrapLoop, h2]

/-- C7 witness: the balance check fails on `"{A}{B}"`, so the unwrap loop
leaves it unchanged, via the amended theorem at a concrete input. -/
theorem C7_witness :
    unwrapLoop 7 "\x7bA\x7d\x7bB\x7d".data = "\x7bA\x7d\x7bB\x7d".data :=
  C7_clean_bib_value_behaviour.2.2.2.2.2 6 "\x7bA\x7d\x7bB\x7d".data (by decide)

/-- C9 counterexample: an entry of type `conference` (with no series hint) is
NOT assigned venue_type `conference`: `_detect_venue_type` only recognizes
`inproceedings` and `proceedings`. -/
theorem C9_counterexample :
    ¬ detect_venue_type (some "conference") none none = some "conference" := by decide

/-- C9 (amended): the normalizer maps `article` to `journal`,
`inproceedings`/`proceedings` (but not plain `conference`, which falls through
to the series heuristic) to `conference`, `book`/`inbook` to `book`,
`phdthesis`/`mastersthesis`/`bachelorthesis` to `thesis`; any other entry type
yields `conference` when the series contains icse/gecco/issta/ase, and no
venue_type otherwise.  The venue itself is the first non-empty of the
`journal`, `booktitle`, `howpublished` fields, independent of the entry type,
with no publisher/institution fallback. -/
theorem C9_venue_type_mapping :
    (∀ v s : Option String,
      detect_venue_type (some "article") v s = some "journal" ∧
      detect_venue_type (some "inproceedings") v s = some "conference" ∧
      detect_venue_type (some "proceedings") v s = some "conference" ∧
      detect_venue_type (some "book") v s = some "book" ∧
      detect_venue_type (some "inbook") v s = some "book" ∧
      detect_venue_type (some "phdthesis") v s = some "thesis" ∧
      detect_venue_type (some "mastersthesis") v s = some "thesis" ∧
      detect_venue_type (some "bachelorthesis") v s = some "thesis" ∧
      detect_venue_type (some "conference") v s = detect_venue_type none v s) ∧
    (∀ v s : Option String, seriesHint s = true →
      detect_venue_type none v s = some "conference") ∧
    (∀ v s : Option String, seriesHint s = false →
      detect_venue_type none v s = none) ∧
    (∀ j b h : Option String, pyTruthy j = true → prefer_venue j b h = j) ∧
    (∀ j b h : Option String, pyTruthy j = false → pyTruthy b = false → pyTruthy h = false →
      prefer_venue j b h = none) := by
  refine ⟨fun v s => ⟨rfl, rfl, rfl, rfl, rfl, rfl, rfl, rfl, rfl⟩, ?_, ?_, ?_, ?_⟩
  · intro v s h
    simp only [seriesHint, Bool.and_eq_true] at h
    show (if pyTruthy s = true then _ else _) = _
    rw [if_pos h.1]
    split
    · rfl
    · rename_i hc
      exact absurd h.2 hc
  · intro v s h
    show (if pyTruthy s = true then _ else _) = _
    by_cases ht : pyTruthy s = true
    · rw [if_pos ht]
      unfold seriesHint at h
      rw [ht] at h
      simp only [Bool.true_and] at h
      split
      · rename_i hc
        exact absurd hc (by simp [h])
      · rfl
    · rw [if_neg ht]
  · intro j b h hj
    unfold prefer_venue
    rw [if_pos hj]
  · intro j b h hj hb hh
    unfold prefer_venue
    rw [if_neg (by simp [hj]), if_neg (by simp [hb]), if_neg (by simp [hh])]

/-- C9 witness: concrete instances discharging the hypotheses of the amended
theorem: an ICSE series gives `conference`, an empty series gives no
venue_type, a truthy journal wins, and all-empty fields give no venue. -/
theorem C9_witness :
    detect_venue_type none none (some "Proc. ICSE") = some "conference" ∧
    detect_venue_type none none (some "LNCS") = none ∧
    prefer_venue (some "J. Sys") (some "B") none = some "J. Sys" ∧
    prefer_venue none (some "") none = none :=
  ⟨C9_venue_type_mapping.2.1 none (some "Proc. ICSE") (by decide),
   C9_venue_type_mapping.2.2.1 none (some "LNCS") (by decide),
   C9_venue_type_mapping.2.2.2.1 (some "J. Sys") (some "B") none (by decide),
   C9_venue_type_mapping.2.2.2.2 none (some "") none (by decide) (by decide) (by decide)⟩

/-- C1: the metric formulas of `compute_metrics`: recall is
`|relevant ∩ retrieved_dois| / |relevant| * 100` (0 for an empty relevant
set), precision is `|relevant ∩ retrieved_dois| / |retrieved_ids| * 100`
(0 for an empty retrieved identity set); on the concrete instance of the spec
(relevant `{10.1/a, 10.1/b}`, retrieved DOIs `{10.1/a, 10.1/c}`, two retrieved
identities) recall and precision are both 50 and the true-positive /
false-negative / false-positive sets are as stated. -/
theorem C1_compute_metrics :
    (∀ (rel rdois rids : Finset String) (detail : List Detail),
      (rel = ∅ → (compute_metrics rel rdois rids detail).RC = 0) ∧
      (rids = ∅ → (compute_metrics rel rdois rids detail).EF = 0) ∧
      (rel ≠ ∅ → (compute_metrics rel rdois rids detail).RC =
        (((rel ∩ rdois).card : ℚ) / (rel.card : ℚ)) * 100) ∧
      (rids ≠ ∅ → (compute_metrics rel rdois rids detail).EF =
        (((rel ∩ rdois).card : ℚ) / (rids.card : ℚ)) * 100)) ∧
    ((compute_metrics {"10.1/a", "10.1/b"} {"10.1/a", "10.1/c"}
        {"doi:10.1/a", "doi:10.1/c"} []).RC = 50 ∧
     (compute_metrics {"10.1/a", "10.1/b"} {"10.1/a", "10.1/c"}
        {"doi:10.1/a", "doi:10.1/c"} []).EF = 50 ∧
     (compute_metrics {"10.1/a", "10.1/b"} {"10.1/a", "10.1/c"}
        {"doi:10.1/a", "doi:10.1/c"} []).TPdois = {"10.1/a"} ∧
     (compute_metrics {"10.1/a", "10.1/b"} {"10.1/a", "10.1/c"}
        {"doi:10.1/a", "doi:10.1/c"} []).FNdois = {"10.1/b"} ∧
     (compute_metrics {"10.1/a", "10.1/b"} {"10.1/a", "10.1/c"}
        {"doi:10.1/a", "doi:10.1/c"} []).FPdois = {"10.1/c"}) := by
  constructor
  · intro rel rdois rids detail
    refine ⟨?_, ?_, ?_, ?_⟩
    · intro h
      simp [compute_metrics, h]
    · intro h
      simp [compute_metrics, h]
    · intro h
      have hc : rel.card ≠ 0 := by simpa [Finset.card_eq_zero] using h
      simp [compute_metrics, hc]
    · intro h
      have hc : rids.card ≠ 0 := by simpa [Finset.card_eq_zero] using h
      simp [compute_metrics, hc]
  · have h1 : (({"10.1/a", "10.1/b"} : Finset String) ∩ {"10.1/a", "10.1/c"}).card = 1 := by
      decide
    have h2 : ({"10.1/a", "10.1/b"} : Finset String).card = 2 := by decide
    have h3 : ({"doi:10.1/a", "doi:10.1/c"} : Finset String).card = 2 := by decide
    refine ⟨?_, ?_, by decide, by decide, by decide⟩
    · show (if ({"10.1/a", "10.1/b"} : Finset String).card = 0 then (0 : ℚ)
        else ((({"10.1/a", "10.1/b"} : Finset String) ∩ {"10.1/a", "10.1/c"}).card : ℚ) /
          ((({"10.1/a", "10.1/b"} : Finset String)).card : ℚ) * 100) = 50
      rw [h1, h2]
      norm_num
    · show (if ({"doi:10.1/a", "doi:10.1/c"} : Finset String).card = 0 then (0 : ℚ)
        else ((({"10.1/a", "10.1/b"} : Finset String) ∩ {"10.1/a", "10.1/c"}).card : ℚ) /
          ((({"doi:10.1/a", "doi:10.1/c"} : Finset String)).card : ℚ) * 100) = 50
      rw [h1, h3]
      norm_num

/-- C1 witness: the zero-division guards and the ratio formula, via the main
theorem at concrete sets. -/
theorem C1_witness :
    (compute_metrics ∅ ∅ ∅ []).RC = 0 ∧ (compute_metrics ∅ ∅ ∅ []).EF = 0 ∧
    (compute_metrics {"10.9999/z"} {"10.9999/z"} {"doi:10.9999/z"} []).RC =
      ((({"10.9999/z"} : Finset String) ∩ {"10.9999/z"}).card : ℚ) /
        ((({"10.9999/z"} : Finset String)).card : ℚ) * 100 :=
  ⟨(C1_compute_metrics.1 ∅ ∅ ∅ []).1 rfl,
   (C1_compute_metrics.1 ∅ ∅ ∅ []).2.1 rfl,
   (C1_compute_metrics.1 {"10.9999/z"} {"10.9999/z"} {"doi:10.9999/z"} []).2.2.1 (by decide)⟩

/-- C2 counterexample: the identity `fallback_id` assigns to a no-DOI record
with title `a`, year `2020` and an empty author list differs from the spec
formula `ttlY:<sha1(title_lower || "||" || author_csv_or_empty || "||" ||
year_or_empty)>` at that record: the code hashes only `title || "||" || year`
(one separator, no author component). -/
theorem C2_counterexample :
    fallback_id (some "a") (some "2020") ≠ spec_ttlY_identity (some "a") "" (some "2020") := by
  decide

/-- C2 (amended): the fallback identity is `ttlY:` followed by the sha1 hex
digest of `title_stripped_lower || "||" || year_stripped_or_empty`; the author
list is not one of the hashed components.  In particular the identity is
invariant under title case/outer-whitespace changes and year outer-whitespace
changes. -/
theorem C2_fallback_formula :
    (∀ title year : Option String, fallback_id title year = spec_ttlY_two_part title year) ∧
    fallback_id (some " The Title ") (some " 1999 ") =
      fallback_id (some "the title") (some "1999") :=
  ⟨fun _ _ => rfl, rfl⟩

/-- C3 counterexample: two no-DOI records whose titles and years do NOT match
map to the same identity, because title and year are joined with the
two-character separator `||`: title `x||1` with no year and title `x` with
year `1||` produce the same hash base `x||1||`. -/
theorem C3_counterexample :
    fallback_id (some "x||1") none = fallback_id (some "x") (some "1||") ∧
    normalizedTitle (some "x||1") ≠ normalizedTitle (some "x") ∧
    normalizedYear none ≠ normalizedYear (some "1||") := by
  exact ⟨rfl, by decide, by decide⟩

/-- C3 (amended): two no-DOI records with equal normalized (stripped,
lowercased) titles and equal normalized year strings always collapse to one
identity; the converse can fail when title or year contains the separator
`||`, but for ordinary inputs the identities separate: changing the year from
2010 to 2011 yields a different identity. -/
theorem C3_fallback_collision :
    (∀ t1 y1 t2 y2 : Option String, normalizedTitle t1 = normalizedTitle t2 →
      normalizedYear y1 = normalizedYear y2 → fallback_id t1 y1 = fallback_id t2 y2) ∧
    fallback_id (some "formal methods") (some "2010") ≠
      fallback_id (some "formal methods") (some "2011") := by
  constructor
  · intro t1 y1 t2 y2 h1 h2
    unfold fallback_id
    rw [h1, h2]
  · decide

/-- C3 witness: two records with the same title up to case and outer
whitespace and the same year collapse to one identity, via the amended
theorem at concrete inputs. -/
theorem C3_witness :
    fallback_id (some " Formal Methods ") (some "2010") =
      fallback_id (some "formal methods") (some "2010") :=
  C3_fallback_collision.1 (some " Formal Methods ") (some "2010")
    (some "formal methods") (some "2010") (by decide) (by decide)

/-! ### Helper lemmas for the duplicate summary -/

theorem length_le_sum_of_one_le (l : List ℕ) (h : ∀ v ∈ l, 1 ≤ v) : l.length ≤ l.sum := by
  induction l with
  | nil => simp
  | cons v t ih =>
    have hv := h v (List.mem_cons_self _ _)
    have ht := ih (fun x hx => h x (List.mem_cons_of_mem _ hx))
    simp only [List.length_cons, List.sum_cons]
    omega

theorem sum_sub_one_filter (l : List ℕ) :
    ((l.filter (fun v => 1 < v)).map (fun v => v - 1)).sum =
      (l.map (fun v => v - 1)).sum := by
  induction l with
  | nil => rfl
  | cons v t ih =>
    by_cases hv : 1 < v
    · simp [List.filter_cons, hv, ih]
    · have hz : v - 1 = 0 := by omega
      simp [List.filter_cons, hv, ih, hz]

theorem sum_map_sub_one (l : List ℕ) (h : ∀ v ∈ l, 1 ≤ v) :
    (l.map (fun v => v - 1)).sum = l.sum - l.length := by
  induction l with
  | nil => rfl
  | cons v t ih =>
    have hv := h v (List.mem_cons_self _ _)
    have ht : ∀ x ∈ t, 1 ≤ x := fun x hx => h x (List.mem_cons_of_mem _ hx)
    have hlen := length_le_sum_of_one_le t ht
    simp only [List.map_cons, List.sum_cons, List.length_cons]
    rw [ih ht]
    omega

/-- The collapsed total of the duplicate summary equals the raw record count
minus the number of distinct identities. -/
theorem collapsed_total_eq (detail : List Detail) :
    (summarize_duplicates detail).duplicates_collapsed_total =
      detail.length - (detail.map Detail.id).dedup.length := by
  have h1 : ∀ v ∈ (detail.map Detail.id).dedup.map
      (fun k => (detail.map Detail.id).count k), 1 ≤ v := by
    intro v hv
    obtain ⟨k, hk, rfl⟩ := List.mem_map.mp hv
    exact List.count_pos_iff.mpr (List.mem_dedup.mp hk)
  show ((((detail.map Detail.id).dedup.map (fun k => (detail.map Detail.id).count k)).filter
      (fun v => 1 < v)).map (fun v => v - 1)).sum = _
  rw [sum_sub_one_filter, sum_map_sub_one _ h1, List.sum_map_count_dedup_eq_length,
    List.length_map, List.length_map]

/-- The fallback identity never coincides with a DOI identity: one starts with
`ttlY:`, the other with `doi:`. -/
theorem fallback_id_ne_doiKey (t y : Option String) (d : String) :
    fallback_id t y ≠ doiKey d := by
  intro h
  have h1 : (fallback_id t y).data.head? = some 't' := rfl
  have h2 : (doiKey d).data.head? = some 'd' := rfl
  rw [h] at h1
  rw [h1] at h2
  simp at h2

/-- The retrieved identity set built by the parse fold is exactly the set of
identities of the detail records. -/
theorem parse_ids_eq_detail_ids (entries : List BibEntry) :
    ∀ acc : Finset String × Finset String × List Detail,
      acc.1 = (acc.2.2.map Detail.id).toFinset →
      (List.foldl entryStep acc entries).1 =
        (((List.foldl entryStep acc entries).2.2).map Detail.id).toFinset := by
  induction entries with
  | nil => intro acc h; exact h
  | cons e t ih =>
    intro acc h
    rw [List.foldl_cons]
    apply ih
    by_cases hc : pyTruthy (clean_doi (optOr e.doi e.doiUC)) = true
    · simp [entryStep, hc, h, List.toFinset_append, Finset.union_comm, Finset.insert_eq]
    · simp [entryStep, hc, h, List.toFinset_append, Finset.union_comm, Finset.insert_eq]

/-- C5: the duplicate summary totals `count - 1` over the identity groups with
more than one member; this always equals the raw record count minus the number
of distinct identities, and the identity set of the parse equals the distinct
detail identities; on a concrete batch of three records sharing the DOI
`10.1234/x` and two no-DOI records with identical title and year, the
collapsed total is 3. -/
theorem C5_duplicates :
    (∀ detail : List Detail,
      (summarize_duplicates detail).duplicates_collapsed_total =
        detail.length - (detail.map Detail.id).dedup.length) ∧
    (∀ entries : List BibEntry,
      (parse_bib_entries entries).1 =
        (((parse_bib_entries entries).2.2).map Detail.id).toFinset) ∧
    (summarize_duplicates (parse_bib_entries
      [⟨some "10.1234/x", none, some "T1", some "2001"⟩,
       ⟨some "10.1234/x", none, some "T2", some "2002"⟩,
       ⟨some "10.1234/x", none, some "T3", some "2003"⟩,
       ⟨none, none, some "Same Title", some "2010"⟩,
       ⟨none, none, some "Same Title", some "2010"⟩]).2.2).duplicates_collapsed_total = 3 := by
  refine ⟨collapsed_total_eq, ?_, ?_⟩
  · intro entries
    exact parse_ids_eq_detail_ids entries (∅, ∅, []) (by simp)
  · rw [collapsed_total_eq]
    have hd : (parse_bib_entries
        [⟨some "10.1234/x", none, some "T1", some "2001"⟩,
         ⟨some "10.1234/x", none, some "T2", some "2002"⟩,
         ⟨some "10.1234/x", none, some "T3", some "2003"⟩,
         ⟨none, none, some "Same Title", some "2010"⟩,
         ⟨none, none, some "Same Title", some "2010"⟩]).2.2.map Detail.id =
        ["doi:10.1234/x", "doi:10.1234/x", "doi:10.1234/x",
         fallback_id (some "Same Title") (some "2010"),
         fallback_id (some "Same Title") (some "2010")] := rfl
    rw [hd]
    have hne : ("doi:10.1234/x" : String) ∉
        [fallback_id (some "Same Title") (some "2010"),
         fallback_id (some "Same Title") (some "2010")] := by
      intro hmem
      rcases List.mem_cons.mp hmem with hh | hh
      · exact fallback_id_ne_doiKey (some "Same Title") (some "2010") "10.1234/x" hh.symm
      · rcases List.mem_cons.mp hh with hh2 | hh2
        · exact fallback_id_ne_doiKey (some "Same Title") (some "2010") "10.1234/x" hh2.symm
        · simp at hh2
    rw [List.dedup_cons_of_mem (by simp), List.dedup_cons_of_mem (by simp),
      List.dedup_cons_of_not_mem hne, List.dedup_cons_of_mem (by simp)]
    rfl

/-! ### Helper lemmas for the metric bounds -/

theorem doiKey_inj {a b : String} (h : doiKey a = doiKey b) : a = b := by
  have h2 := congrArg String.data h
  simp only [doiKey, String.data_append] at h2
  exact String.ext (List.append_cancel_left h2)

/-- Invariant of the parse fold: every retrieved DOI contributes its
`doi:`-prefixed identity to the retrieved identity set. -/
theorem parse_doiKey_mem (entries : List BibEntry) :
    ∀ acc : Finset String × Finset String × List Detail,
      (∀ d ∈ acc.2.1, doiKey d ∈ acc.1) →
      ∀ d ∈ (List.foldl entryStep acc entries).2.1, doiKey d ∈ (List.foldl entryStep acc entries).1 := by
  induction entries with
  | nil => intro acc h; exact h
  | cons e t ih =>
    intro acc h
    rw [List.foldl_cons]
    apply ih
    intro d hd
    by_cases hc : pyTruthy (clean_doi (optOr e.doi e.doiUC)) = true
    · simp only [entryStep, hc, if_true] at hd ⊢
      rcases Finset.mem_insert.mp hd with hEq | hIn
      · subst hEq; exact Finset.mem_insert_self _ _
      · exact Finset.mem_insert_of_mem (h d hIn)
    · simp only [entryStep, hc, if_false, Bool.false_eq_true] at hd ⊢
      exact Finset.mem_insert_of_mem (h d hd)

/-- The retrieved DOI set is never larger than the retrieved identity set. -/
theorem parse_TEdoi_le_TE (entries : List BibEntry) :
    (parse_bib_entries entries).2.1.card ≤ (parse_bib_entries entries).1.card := by
  have hmem := parse_doiKey_mem entries (∅, ∅, []) (by simp)
  exact Finset.card_le_card_of_injOn doiKey hmem (fun a _ b _ hab => doiKey_inj hab)

theorem pct_bounds (a b : ℕ) (h : a ≤ b) :
    0 ≤ (if b = 0 then (0:ℚ) else (a:ℚ)/(b:ℚ)*100) ∧
    (if b = 0 then (0:ℚ) else (a:ℚ)/(b:ℚ)*100) ≤ 100 := by
  split_ifs with hb
  · norm_num
  · have hb0 : (0:ℚ) < (b:ℚ) := by exact_mod_cast Nat.pos_of_ne_zero hb
    have ha : (a:ℚ) ≤ (b:ℚ) := by exact_mod_cast h
    constructor
    · positivity
    · rw [div_mul_eq_mul_div, div_le_iff₀ hb0]
      nlinarith

/-- C10: for metrics computed over the sets produced by the parse fold, recall
and precision lie in [0, 100]: the true positives are at most the relevant
count and at most the retrieved DOI count, and every retrieved DOI contributes
a distinct `doi:` identity, so `TE_doi ≤ TE` and `TER ≤ TE`. -/
theorem C10_metric_bounds (entries : List BibEntry) (relevant : Finset String) :
    0 ≤ (compute_metrics relevant (parse_bib_entries entries).2.1 (parse_bib_entries entries).1
        (parse_bib_entries entries).2.2).RC ∧
    (compute_metrics relevant (parse_bib_entries entries).2.1 (parse_bib_entries entries).1
        (parse_bib_entries entries).2.2).RC ≤ 100 ∧
    0 ≤ (compute_metrics relevant (parse_bib_entries entries).2.1 (parse_bib_entries entries).1
        (parse_bib_entries entries).2.2).EF ∧
    (compute_metrics relevant (parse_bib_entries entries).2.1 (parse_bib_entries entries).1
        (parse_bib_entries entries).2.2).EF ≤ 100 ∧
    (compute_metrics relevant (parse_bib_entries entries).2.1 (parse_bib_entries entries).1
        (parse_bib_entries entries).2.2).TEdoi ≤
      (compute_metrics relevant (parse_bib_entries entries).2.1 (parse_bib_entries entries).1
        (parse_bib_entries entries).2.2).TE ∧
    (compute_metrics relevant (parse_bib_entries entries).2.1 (parse_bib_entries entries).1
        (parse_bib_entries entries).2.2).TER ≤
      (compute_metrics relevant (parse_bib_entries entries).2.1 (parse_bib_entries entries).1
        (parse_bib_entries entries).2.2).TEdoi ∧
    (compute_metrics relevant (parse_bib_entries entries).2.1 (parse_bib_entries entries).1
        (parse_bib_entries entries).2.2).TER ≤
      (compute_metrics relevant (parse_bib_entries entries).2.1 (parse_bib_entries entries).1
        (parse_bib_entries entries).2.2).TE := by
  have hd : (parse_bib_entries entries).2.1.card ≤ (parse_bib_entries entries).1.card :=
    parse_TEdoi_le_TE entries
  have hter_doi : (relevant ∩ (parse_bib_entries entries).2.1).card ≤
      (parse_bib_entries entries).2.1.card :=
    Finset.card_le_card Finset.inter_subset_right
  have hter_rel : (relevant ∩ (parse_bib_entries entries).2.1).card ≤ relevant.card :=
    Finset.card_le_card Finset.inter_subset_left
  have hRC := pct_bounds (relevant ∩ (parse_bib_entries entries).2.1).card relevant.card hter_rel
  have hEF := pct_bounds (relevant ∩ (parse_bib_entries entries).2.1).card
    (parse_bib_entries entries).1.card (le_trans hter_doi hd)
  exact ⟨hRC.1, hRC.2, hEF.1, hEF.2, hd, hter_doi, le_trans hter_doi hd⟩

/-! ### Helper lemmas for the provider fixes -/

@[simp] theorem setR_title (n : NormRecord) : (setResolverUrl n).title = n.title := by
  unfold setResolverUrl; split <;> rfl

@[simp] theorem setR_authors (n : NormRecord) : (setResolverUrl n).authors = n.authors := by
  unfold setResolverUrl; split <;> rfl

@[simp] theorem setR_year (n : NormRecord) : (setResolverUrl n).year = n.year := by
  unfold setResolverUrl; split <;> rfl

@[simp] theorem setR_publisher (n : NormRecord) : (setResolverUrl n).publisher = n.publisher := by
  unfold setResolverUrl; split <;> rfl

@[simp] theorem setR_doi (n : NormRecord) : (setResolverUrl n).doi = n.doi := by
  unfold setResolverUrl; split <;> rfl

@[simp] theorem setR_venue_type (n : NormRecord) : (setResolverUrl n).venue_type = n.venue_type := by
  unfold setResolverUrl; split <;> rfl

@[simp] theorem setR_entry_type (n : NormRecord) : (setResolverUrl n).entry_type = n.entry_type := by
  unfold setResolverUrl; split <;> rfl

@[simp] theorem setR_venue (n : NormRecord) : (setResolverUrl n).venue = n.venue := by
  unfold setResolverUrl; split <;> rfl

@[simp] theorem setR_series (n : NormRecord) : (setResolverUrl n).series = n.series := by
  unfold setResolverUrl; split <;> rfl

@[simp] theorem setR_source_provider (n : NormRecord) :
    (setResolverUrl n).source_provider = n.source_provider := by
  unfold setResolverUrl; split <;> rfl

@[simp] theorem setVT_title (n : NormRecord) : (setVenueTypeIfMissing n).title = n.title := by
  unfold setVenueTypeIfMissing; split <;> rfl

@[simp] theorem setVT_authors (n : NormRecord) : (setVenueTypeIfMissing n).authors = n.authors := by
  unfold setVenueTypeIfMissing; split <;> rfl

@[simp] theorem setVT_year (n : NormRecord) : (setVenueTypeIfMissing n).year = n.year := by
  unfold setVenueTypeIfMissing; split <;> rfl

@[simp] theorem setVT_publisher (n : NormRecord) :
    (setVenueTypeIfMissing n).publisher = n.publisher := by
  unfold setVenueTypeIfMissing; split <;> rfl

@[simp] theorem setVT_doi (n : NormRecord) : (setVenueTypeIfMissing n).doi = n.doi := by
  unfold setVenueTypeIfMissing; split <;> rfl

@[simp] theorem setVT_durl (n : NormRecord) :
    (setVenueTypeIfMissing n).doi_resolver_url = n.doi_resolver_url := by
  unfold setVenueTypeIfMissing; split <;> rfl

@[simp] theorem setVT_entry_type (n : NormRecord) :
    (setVenueTypeIfMissing n).entry_type = n.entry_type := by
  unfold setVenueTypeIfMissing; split <;> rfl

@[simp] theorem setVT_venue (n : NormRecord) : (setVenueTypeIfMissing n).venue = n.venue := by
  unfold setVenueTypeIfMissing; split <;> rfl

@[simp] theorem setVT_series (n : NormRecord) : (setVenueTypeIfMissing n).series = n.series := by
  unfold setVenueTypeIfMissing; split <;> rfl

@[simp] theorem setVT_source_provider (n : NormRecord) :
    (setVenueTypeIfMissing n).source_provider = n.source_provider := by
  unfold setVenueTypeIfMissing; split <;> rfl

@[simp] theorem acmNorm_title (n : NormRecord) (raw : RawEntryDict) :
    (acmNormalizePublisher n raw).title = n.title := by
  simp only [acmNormalizePublisher]; split <;> rfl

@[simp] theorem acmNorm_authors (n : NormRecord) (raw : RawEntryDict) :
    (acmNormalizePublisher n raw).authors = n.authors := by
  simp only [acmNormalizePublisher]; split <;> rfl

@[simp] theorem acmNorm_year (n : NormRecord) (raw : RawEntryDict) :
    (acmNormalizePublisher n raw).year = n.year := by
  simp only [acmNormalizePublisher]; split <;> rfl

@[simp] theorem acmNorm_doi (n : NormRecord) (raw : RawEntryDict) :
    (acmNormalizePublisher n raw).doi = n.doi := by
  simp only [acmNormalizePublisher]; split <;> rfl

@[simp] theorem acmNorm_durl (n : NormRecord) (raw : RawEntryDict) :
    (acmNormalizePublisher n raw).doi_resolver_url = n.doi_resolver_url := by
  simp only [acmNormalizePublisher]; split <;> rfl

@[simp] theorem acmNorm_venue_type (n : NormRecord) (raw : RawEntryDict) :
    (acmNormalizePublisher n raw).venue_type = n.venue_type := by
  simp only [acmNormalizePublisher]; split <;> rfl

@[simp] theorem acmNorm_entry_type (n : NormRecord) (raw : RawEntryDict) :
    (acmNormalizePublisher n raw).entry_type = n.entry_type := by
  simp only [acmNormalizePublisher]; split <;> rfl

@[simp] theorem acmNorm_venue (n : NormRecord) (raw : RawEntryDict) :
    (acmNormalizePublisher n raw).venue = n.venue := by
  simp only [acmNormalizePublisher]; split <;> rfl

@[simp] theorem acmNorm_series (n : NormRecord) (raw : RawEntryDict) :
    (acmNormalizePublisher n raw).series = n.series := by
  simp only [acmNormalizePublisher]; split <;> rfl

@[simp] theorem acmNorm_source_provider (n : NormRecord) (raw : RawEntryDict) :
    (acmNormalizePublisher n raw).source_provider = n.source_provider := by
  simp only [acmNormalizePublisher]; split <;> rfl

theorem detect_venue_type_cases (et ve se : Option String) :
    detect_venue_type et ve se = none ∨ detect_venue_type et ve se = some "journal" ∨
    detect_venue_type et ve se = some "conference" ∨ detect_venue_type et ve se = some "book" ∨
    detect_venue_type et ve se = some "thesis" := by
  unfold detect_venue_type
  by_cases h1 : lowerStr (et.getD "") = "article"
  · rw [if_pos h1]; simp
  · rw [if_neg h1]
    by_cases h2 : lowerStr (et.getD "") = "inproceedings" ∨ lowerStr (et.getD "") = "proceedings"
    · rw [if_pos h2]; simp
    · rw [if_neg h2]
      by_cases h3 : lowerStr (et.getD "") = "book" ∨ lowerStr (et.getD "") = "inbook"
      · rw [if_pos h3]; simp
      · rw [if_neg h3]
        by_cases h4 : lowerStr (et.getD "") = "phdthesis" ∨ lowerStr (et.getD "") = "mastersthesis" ∨
            lowerStr (et.getD "") = "bachelorthesis"
        · rw [if_pos h4]; simp
        · rw [if_neg h4]
          by_cases h5 : pyTruthy se = true
          · rw [if_pos h5]
            dsimp only
            split <;> simp
          · rw [if_neg h5]; simp

theorem detect_venue_type_ne_empty (et ve se : Option String) :
    detect_venue_type et ve se ≠ some "" := by
  rcases detect_venue_type_cases et ve se with h | h | h | h | h <;> rw [h] <;> simp

theorem resolver_url_ne_empty (d : String) : ("https://doi.org/" ++ d) ≠ "" := by
  intro h
  have h2 := congrArg String.length h
  rw [String.length_append] at h2
  have h3 : "https://doi.org/".length = 16 := rfl
  have h4 : "".length = 0 := rfl
  rw [h3, h4] at h2
  omega

theorem resolver_url_eq_empty_iff (d : String) : (("https://doi.org/" ++ d) = "") ↔ False :=
  iff_false_intro (resolver_url_ne_empty d)

theorem setVT_idem (n : NormRecord) :
    setVenueTypeIfMissing (setVenueTypeIfMissing n) = setVenueTypeIfMissing n := by
  obtain ⟨id, et, ti, au, yr, ve, vt, vo, nu, pt, ps, pe, np, pu, isn, isb, doi, durl, url, kw,
    ab, se, ad, lo, sf, sfo, sp, spr, ck, kn, hs, tg, px⟩ := n
  simp only [setVenueTypeIfMissing]
  split_ifs <;>
    simp_all [pyFalsy, pyTruthy, detect_venue_type_ne_empty, Option.ne_none_iff_exists]

theorem setR_idem (n : NormRecord) :
    setResolverUrl (setResolverUrl n) = setResolverUrl n := by
  obtain ⟨id, et, ti, au, yr, ve, vt, vo, nu, pt, ps, pe, np, pu, isn, isb, doi, durl, url, kw,
    ab, se, ad, lo, sf, sfo, sp, spr, ck, kn, hs, tg, px⟩ := n
  simp only [setResolverUrl]
  split_ifs <;> simp_all [pyFalsy, pyTruthy, resolver_url_eq_empty_iff]

theorem setR_after_setVT (n : NormRecord) :
    setResolverUrl (setVenueTypeIfMissing (setResolverUrl n)) =
      setVenueTypeIfMissing (setResolverUrl n) := by
  obtain ⟨id, et, ti, au, yr, ve, vt, vo, nu, pt, ps, pe, np, pu, isn, isb, doi, durl, url, kw,
    ab, se, ad, lo, sf, sfo, sp, spr, ck, kn, hs, tg, px⟩ := n
  simp only [setResolverUrl, setVenueTypeIfMissing]
  split_ifs <;> simp_all [pyFalsy, pyTruthy, resolver_url_eq_empty_iff]

theorem optOr_canonical (b : Option String) :
    optOr (some acmCanonicalName) b = some acmCanonicalName := by
  simp [optOr, pyTruthy, acmCanonicalName]

theorem update_publisher_eta (m : NormRecord) (v : Option String) (h : m.publisher = v) :
    ({ m with publisher := v } : NormRecord) = m := by
  rw [← h]

theorem update_source_provider_eta (m : NormRecord) (v : Option String)
    (h : m.source_provider = v) : ({ m with source_provider := v } : NormRecord) = m := by
  rw [← h]

theorem acmNormCond_of_pub_eq (m m2 : NormRecord) (raw : RawEntryDict)
    (h : m2.publisher = m.publisher) : acmNormCond m2 raw = acmNormCond m raw := by
  simp only [acmNormCond, h]

theorem acmNorm_publisher_cases (n : NormRecord) (raw : RawEntryDict) :
    (acmNormalizePublisher n raw).publisher = n.publisher ∨
    (acmNormalizePublisher n raw).publisher = some acmCanonicalName := by
  unfold acmNormalizePublisher
  split
  · right; rfl
  · left; rfl

/-- Re-running the publisher normalization after the rest of the ACM fix
changes nothing: the condition depends only on the publisher field and the raw
entry, and the first run leaves the publisher either untouched or canonical. -/
theorem acmNorm_after (Y : NormRecord) (raw : RawEntryDict) :
    acmNormalizePublisher
        (setVenueTypeIfMissing (setResolverUrl (acmNormalizePublisher Y raw))) raw =
      setVenueTypeIfMissing (setResolverUrl (acmNormalizePublisher Y raw)) := by
  by_cases hc : acmNormCond Y raw = true
  · have h1 : acmNormalizePublisher Y raw = { Y with publisher := some acmCanonicalName } := by
      unfold acmNormalizePublisher; rw [if_pos hc]
    rw [h1]
    have hpubW : (setVenueTypeIfMissing (setResolverUrl
        ({ Y with publisher := some acmCanonicalName } : NormRecord))).publisher =
        some acmCanonicalName := by
      rw [setVT_publisher, setR_publisher]
    have hcW : acmNormCond (setVenueTypeIfMissing (setResolverUrl
        ({ Y with publisher := some acmCanonicalName } : NormRecord))) raw = true := by
      simp only [acmNormCond, hpubW, optOr_canonical]
      decide
    unfold acmNormalizePublisher
    rw [if_pos hcW]
    exact update_publisher_eta _ _ hpubW
  · have h1 : acmNormalizePublisher Y raw = Y := by
      unfold acmNormalizePublisher; rw [if_neg hc]
    rw [h1]
    have hpubW : (setVenueTypeIfMissing (setResolverUrl Y)).publisher = Y.publisher := by
      rw [setVT_publisher, setR_publisher]
    have hcW := acmNormCond_of_pub_eq Y (setVenueTypeIfMissing (setResolverUrl Y)) raw hpubW
    unfold acmNormalizePublisher
    rw [if_neg (by rw [hcW]; exact hc)]

theorem sdFix_idem (r : NormRecord) (raw : RawEntryDict) :
    sciencedirectFix (sciencedirectFix r raw) raw = sciencedirectFix r raw := by
  unfold sciencedirectFix
  rw [update_source_provider_eta _ _ (by simp)]
  rw [setR_after_setVT]
  exact setVT_idem _

theorem acmFix_idem (r : NormRecord) (raw : RawEntryDict) :
    acmFix (acmFix r raw) raw = acmFix r raw := by
  unfold acmFix
  rw [update_source_provider_eta _ _ (by simp)]
  rw [acmNorm_after]
  rw [setR_after_setVT]
  exact setVT_idem _

/-- C8 counterexample: the ACM adapter fix does NOT leave the publisher field
unchanged: a record whose publisher is the lowercase string `association for
computing machinery` has its publisher rewritten to the canonical
capitalization. -/
theorem C8_counterexample :
    (acmFix acmSampleRecord emptyRawEntry).publisher ≠ acmSampleRecord.publisher ∧
    (acmFix acmSampleRecord emptyRawEntry).publisher =
      some "Association for Computing Machinery" := by
  exact ⟨by decide, by decide⟩

/-- C8 (amended): both provider fixes are idempotent and leave title, authors
and year (and, for the ScienceDirect fix, the publisher) unchanged; the ACM
fix either leaves the publisher unchanged or rewrites it to the canonical name
`Association for Computing Machinery` (when it contains that name
case-insensitively); besides that the fixes only set the provenance
(`source_provider`, `doi_resolver_url`) and venue-type annotation fields. -/
theorem C8_provider_fix :
    (∀ (r : NormRecord) (raw : RawEntryDict),
      sciencedirectFix (sciencedirectFix r raw) raw = sciencedirectFix r raw ∧
      acmFix (acmFix r raw) raw = acmFix r raw) ∧
    (∀ (r : NormRecord) (raw : RawEntryDict),
      (sciencedirectFix r raw).title = r.title ∧
      (sciencedirectFix r raw).authors = r.authors ∧
      (sciencedirectFix r raw).year = r.year ∧
      (sciencedirectFix r raw).publisher = r.publisher ∧
      (acmFix r raw).title = r.title ∧
      (acmFix r raw).authors = r.authors ∧
      (acmFix r raw).year = r.year ∧
      ((acmFix r raw).publisher = r.publisher ∨
        (acmFix r raw).publisher = some acmCanonicalName)) := by
  constructor
  · intro r raw
    exact ⟨sdFix_idem r raw, acmFix_idem r raw⟩
  · intro r raw
    refine ⟨by simp [sciencedirectFix], by simp [sciencedirectFix], by simp [sciencedirectFix],
      by simp [sciencedirectFix], by simp [acmFix], by simp [acmFix], by simp [acmFix], ?_⟩
    have h := acmNorm_publisher_cases
      ({ r with source_provider := some "acm" } : NormRecord) raw
    rcases h with h | h
    · left
      simp only [acmFix, setVT_publisher, setR_publisher, h]
    · right
      simp only [acmFix, setVT_publisher, setR_publisher, h]

end RecallPrecision
